import Mathlib

/-!
Shallow embedding of the firm trading-rules validator.

Timestamps are modelled as rational numbers of seconds since the Unix epoch
(UTC); pandas timestamps carry sub-second precision and `total_seconds()`
comparisons, which ℚ captures exactly.  Strings (statuses, sides, instrument
symbols) are Lean `String`s with the exact literals of `config.py`.
-/

namespace FirmRules

/-! ## config.py -/

def STATUS_PASSED : String := "✅ PASSED"

def STATUS_VIOLATED : String := "❌ VIOLATED"

def STATUS_NOT_TESTABLE : String := "⚠️ NOT TESTABLE"

def HEDGING_MIN_OVERLAP_SECONDS : ℚ := 1

def MAX_MARGIN_USAGE_PERCENT : ℚ := 80.1

def NEWS_BUFFER_SECONDS : ℚ := 300

def TOLERANCE_TIME : ℚ := 1

def CONTRACT_SIZE_STANDARD : ℚ := 100000

/-- One entry of `config.ACCOUNT_TYPES` (the fields the embedded rules use). -/
structure AccountConfig where
  leverage : ℚ
  min_trading_days : ℕ
deriving Repr, DecidableEq

/-- `config.ACCOUNT_TYPES`: dictionary lookup; unknown keys raise in Python,
here they give `none`. -/
def ACCOUNT_TYPES : String → Option AccountConfig
  | "2-Step Phase 1" => some ⟨100, 0⟩
  | "2-Step Phase 2" => some ⟨100, 0⟩
  | "Funded Phase" => some ⟨50, 4⟩
  | "Direct Funding" => some ⟨30, 7⟩
  | _ => none

/-! ## Data model: one row of the normalized trade table -/

/-- A normalized trade row (the columns the embedded rules read). -/
structure Trade where
  position_id : String
  side : String
  instrument : String
  open_time : ℚ
  close_time : ℚ
  lots : ℚ
  open_price : ℚ
  close_price : ℚ
deriving Repr, DecidableEq

/-! ## utils.check_time_overlap -/

/-- `utils.check_time_overlap`: overlap window is `[max(starts), min(ends)]`;
a true overlap needs `overlap_seconds >= HEDGING_MIN_OVERLAP_SECONDS`;
the reported duration is clamped at 0. -/
def check_time_overlap (start1 end1 start2 end2 : ℚ) : Bool × ℚ :=
  let overlap_start := max start1 start2
  let overlap_end := min end1 end2
  let overlap_seconds := overlap_end - overlap_start
  (decide (HEDGING_MIN_OVERLAP_SECONDS ≤ overlap_seconds), max 0 overlap_seconds)

/-- The raw (unclamped) overlap duration `min(ends) - max(starts)`. -/
def overlapSeconds (t u : Trade) : ℚ :=
  min t.close_time u.close_time - max t.open_time u.open_time

/-! ## Rule_1.check_hedging_violation -/

/-- All unordered pairs of rows, each pair once, first component earlier in the
table.  In the source the pairs are produced per instrument group sorted by
open time under the original-index guard `i >= j: continue`, which flags
exactly the original-index pairs `i < j`; the grouping and sorting only change
the order of the violation list, not which pairs appear. -/
def tradePairs : List Trade → List (Trade × Trade)
  | [] => []
  | t :: ts => ts.map (fun u => (t, u)) ++ tradePairs ts

/-- The per-pair test of `Rule_1.check_hedging_violation`: same instrument,
opposite sides (`Side` values differ), time overlap at least 1 second. -/
def hedgingPairViolates (t u : Trade) : Bool :=
  t.instrument == u.instrument && t.side != u.side &&
    (check_time_overlap t.open_time t.close_time u.open_time u.close_time).1

/-- One violation record of Rule 1 (the fields of the source dict that identify
the pair; `overlap_seconds` is the clamped duration it reports). -/
structure HedgingViolation where
  instrument : String
  trade1 : Trade
  trade2 : Trade
  overlap_seconds : ℚ
deriving Repr, DecidableEq

structure Rule1Result where
  rule_number : ℕ
  total_trades : ℕ
  violations : List HedgingViolation
  status : String
deriving Repr, DecidableEq

/-- `Rule_1.check_hedging_violation`. -/
def check_hedging_violation (df : List Trade) : Rule1Result :=
  let violations := (tradePairs df).filterMap fun p =>
    if hedgingPairViolates p.1 p.2 then
      some ⟨p.1.instrument, p.1, p.2,
        (check_time_overlap p.1.open_time p.1.close_time
          p.2.open_time p.2.close_time).2⟩
    else none
  { rule_number := 1
    total_trades := df.length
    violations := violations
    status := if violations.length > 0 then STATUS_VIOLATED else STATUS_PASSED }

/-! ## utils.calculate_margin_required and Rule_13.check_margin_usage -/

/-- `utils.calculate_margin_required`: `lots * contract_size(standard=100000)
* price / leverage`.  The instrument argument of the source is unused there
(contract size is always the standard one). -/
def calculate_margin_required (lots : ℚ) (price : ℚ) (leverage : ℚ) : ℚ :=
  lots * CONTRACT_SIZE_STANDARD * price / leverage

/-- The check-point timestamps of `Rule_13.check_margin_usage`: the open and
close instants of every trade.  The source sorts them by time, which only
permutes the violation list. -/
def marginCheckPoints (df : List Trade) : List ℚ :=
  df.flatMap fun t => [t.open_time, t.close_time]

/-- The open-position filter of `Rule_13.check_margin_usage`:
`Open Time <= timestamp` and `Close Time > timestamp`. -/
def openTradesAt (df : List Trade) (timestamp : ℚ) : List Trade :=
  df.filter fun t =>
    decide (t.open_time ≤ timestamp) && decide (t.close_time > timestamp)

/-- Total margin required by the positions open at `timestamp`. -/
def totalMarginAt (df : List Trade) (leverage : ℚ) (timestamp : ℚ) : ℚ :=
  ((openTradesAt df timestamp).map fun t =>
    calculate_margin_required t.lots t.open_price leverage).sum

/-- Margin usage percentage at `timestamp` (`0` when equity is not positive,
as in the source's guard). -/
def marginUsagePercentAt (df : List Trade) (equity leverage timestamp : ℚ) : ℚ :=
  if equity > 0 then totalMarginAt df leverage timestamp / equity * 100 else 0

structure Rule13Result where
  rule_number : ℕ
  status : String
  total_trades : ℕ
  violations : List ℚ
  leverage : ℚ
deriving Repr, DecidableEq

/-- The violation scan of `Rule_13.check_margin_usage`: at each check point
with open positions (`continue` on the empty set), record a violation when the
usage percentage strictly exceeds `MAX_MARGIN_USAGE_PERCENT = 80.1`.  The
record is kept here as the violating timestamp. -/
def marginViolations (df : List Trade) (account_equity leverage : ℚ) : List ℚ :=
  (marginCheckPoints df).filter fun timestamp =>
    !(openTradesAt df timestamp).isEmpty &&
      decide (marginUsagePercentAt df account_equity leverage timestamp >
        MAX_MARGIN_USAGE_PERCENT)

/-- The result `Rule_13.check_margin_usage` builds once the leverage is
known. -/
def marginResult (df : List Trade) (account_equity : ℚ)
    (cfg : AccountConfig) : Rule13Result :=
  { rule_number := 13
    status := if (marginViolations df account_equity cfg.leverage).isEmpty
      then STATUS_PASSED else STATUS_VIOLATED
    total_trades := df.length
    violations := marginViolations df account_equity cfg.leverage
    leverage := cfg.leverage }

/-- `Rule_13.check_margin_usage`.  Leverage comes from
`config.ACCOUNT_TYPES[account_type]`; an unknown account type raises in
Python, hence `none` here. -/
def check_margin_usage (df : List Trade) (account_equity : ℚ)
    (account_type : String) : Option Rule13Result :=
  (ACCOUNT_TYPES account_type).map (marginResult df account_equity)

/-! ## Weekend primitives (utils.is_weekend, utils.get_weekend_windows) -/

/-- Whole days since the Unix epoch of a UTC instant. -/
def daysOf (t : ℚ) : ℤ := ⌊t / 86400⌋

/-- `datetime.weekday()`: 0 = Monday … 6 = Sunday.  1970-01-01 was a
Thursday (= 3). -/
def weekdayOf (t : ℚ) : ℤ := (daysOf t + 3) % 7

/-- `datetime.hour` of a UTC instant. -/
def hourOf (t : ℚ) : ℤ := ⌊(t - 86400 * (daysOf t : ℚ)) / 3600⌋

/-- `utils.is_weekend`: Friday from 22:00, all Saturday, Sunday before
22:00 (UTC). -/
def is_weekend (t : ℚ) : Bool :=
  (weekdayOf t == 4 && hourOf t ≥ 22) ||
  weekdayOf t == 5 ||
  (weekdayOf t == 6 && hourOf t < 22)

/-- `utils.get_weekend_windows`: starting from the Friday at or before
`start_date`'s midnight, step a week at a time while
`current <= end_date + 7 days`, emitting `[Friday 22:00, Sunday 22:00]`
windows that intersect `[start_date, end_date]`.  The `while` loop is
unrolled into `List.range` over its (computed) iteration count. -/
def get_weekend_windows (start_date end_date : ℚ) : List (ℚ × ℚ) :=
  let midnight : ℚ := 86400 * (daysOf start_date : ℚ)
  let days_since_friday : ℤ := (weekdayOf start_date - 4) % 7
  let first_friday : ℚ := midnight - 86400 * (days_since_friday : ℚ)
  let steps : ℕ := (⌊(end_date + 7 * 86400 - first_friday) / (7 * 86400)⌋ + 1).toNat
  (List.range steps).filterMap fun k =>
    let weekend_start := first_friday + 7 * 86400 * k + 22 * 3600
    let weekend_end := weekend_start + 2 * 86400
    if weekend_end ≥ start_date ∧ weekend_start ≤ end_date then
      some (weekend_start, weekend_end)
    else none

/-! ## Rule_19.check_weekend_trading -/

/-- Minimum of the `Open Time` column (`0` for an empty table; the source
would produce `NaT` there and the embedded theorems never use that case). -/
def minOpenTime : List Trade → ℚ
  | [] => 0
  | t :: ts => ts.foldl (fun acc u => min acc u.open_time) t.open_time

/-- Maximum of the `Close Time` column (`0` for an empty table). -/
def maxCloseTime : List Trade → ℚ
  | [] => 0
  | t :: ts => ts.foldl (fun acc u => max acc u.close_time) t.close_time

/-- The per-trade body of `Rule_19.check_weekend_trading`: flag `OPEN` if the
open instant is in the weekend window, `CLOSE` if the close instant is, and —
only when neither fired — `HELD` at the start of the first weekend window the
trade's interval overlaps by at least 1 second (`has_overlap` already means
`>= 1` and the extra `>= TOLERANCES['time']` guard repeats that bound). -/
def weekendEventsFor (windows : List (ℚ × ℚ)) (t : Trade) : List (String × ℚ) :=
  let openFlag := if is_weekend t.open_time then [("OPEN", t.open_time)] else []
  let closeFlag := if is_weekend t.close_time then [("CLOSE", t.close_time)] else []
  let flags := openFlag ++ closeFlag
  if flags.isEmpty then
    match windows.find? (fun w =>
        let r := check_time_overlap t.open_time t.close_time w.1 w.2
        r.1 && decide (r.2 ≥ TOLERANCE_TIME)) with
    | some w => [("HELD", w.1)]
    | none => []
  else flags

/-- One violation record of Rule 19 (the identifying fields of the source
dict). -/
structure WeekendViolation where
  position_id : String
  event_type : String
  event_time : ℚ
deriving Repr, DecidableEq

structure Rule19Result where
  rule_number : ℕ
  status : String
  total_trades : ℕ
  violations : List WeekendViolation
  addon_enabled : Bool
deriving Repr, DecidableEq

/-- `Rule_19.check_weekend_trading`. -/
def check_weekend_trading (df : List Trade) (addon_enabled : Bool) : Rule19Result :=
  if addon_enabled then
    { rule_number := 19
      status := STATUS_NOT_TESTABLE
      total_trades := df.length
      violations := []
      addon_enabled := true }
  else
    let windows := get_weekend_windows (minOpenTime df) (maxCloseTime df)
    let violations := df.flatMap fun t =>
      (weekendEventsFor windows t).map fun e =>
        { position_id := t.position_id
          event_type := e.1
          event_time := e.2 : WeekendViolation }
    { rule_number := 19
      status := if violations.isEmpty then STATUS_PASSED else STATUS_VIOLATED
      total_trades := df.length
      violations := violations
      addon_enabled := false }

/-! ## Rule_18.check_news_trading and rule_executor.execute_rule_18 -/

/-- One news event handed to Rule 18 (`{time, currency, title}`). -/
structure NewsEvent where
  time : ℚ
  currency : String
  title : String
deriving Repr, DecidableEq

/-- `utils.get_instrument_currency_pairs`: gold/silver specials
(`startswith('XAU')` / `'XAG'`), then the first six characters of a forex
symbol (`instrument[:3]`, `instrument[3:6]`), else no currencies.  The
prefix test and the slices are taken on the character list, which is what
Python string slicing does. -/
def get_instrument_currency_pairs (instrument : String) : Option (String × String) :=
  if instrument.data.take 3 = "XAU".data then some ("XAU", "USD")
  else if instrument.data.take 3 = "XAG".data then some ("XAG", "USD")
  else if instrument.data.length ≥ 6 then
    some (⟨instrument.data.take 3⟩, ⟨(instrument.data.drop 3).take 3⟩)
  else none

/-- The relevant-currency list Rule 18 builds from
`get_instrument_currency_pairs` (`[]` when the base currency is `None`). -/
def relevantCurrencies (instrument : String) : List String :=
  match get_instrument_currency_pairs instrument with
  | some (base, quote) => [base, quote]
  | none => []

/-- `Rule_18.fetch_forex_factory_news`: the placeholder implementation
literally returns the empty list. -/
def fetch_forex_factory_news : List NewsEvent := []

/-- One violation record of Rule 18 (identifying fields of the source dict). -/
structure NewsViolation where
  position_id : String
  event_type : String
  trade_time : ℚ
  news_time : ℚ
deriving Repr, DecidableEq

structure Rule18Result where
  rule_number : ℕ
  status : String
  message : String
  total_trades : ℕ
  violations : List NewsViolation
deriving Repr, DecidableEq

/-- The per-trade, per-event body of `Rule_18.check_news_trading`: skip
events whose currency is not relevant to the instrument (`continue`), then
flag the open and the close instants that fall within
`±NEWS_BUFFER_SECONDS` of the event. -/
def newsHitsFor (t : Trade) (e : NewsEvent) : List NewsViolation :=
  if (relevantCurrencies t.instrument).contains e.currency then
    (if |t.open_time - e.time| ≤ NEWS_BUFFER_SECONDS then
      [{ position_id := t.position_id, event_type := "OPEN"
         trade_time := t.open_time, news_time := e.time : NewsViolation }]
    else []) ++
    (if |t.close_time - e.time| ≤ NEWS_BUFFER_SECONDS then
      [{ position_id := t.position_id, event_type := "CLOSE"
         trade_time := t.close_time, news_time := e.time : NewsViolation }]
    else [])
  else []

/-- `Rule_18.check_news_trading`, with the list returned by the news fetch as
an explicit parameter (the source fetches it from an external provider inside
the function; the fetch is I/O, its result is this argument).  Add-on enabled
or an empty news list give `NOT TESTABLE`; otherwise every trade's open and
close instants are tested for `±NEWS_BUFFER_SECONDS` proximity to each
relevant-currency event. -/
def check_news_trading (df : List Trade) (addon_enabled : Bool)
    (news_events : List NewsEvent) : Rule18Result :=
  if addon_enabled then
    { rule_number := 18
      status := STATUS_NOT_TESTABLE
      message := "News Trading Add-on is enabled. This rule is skipped."
      total_trades := df.length
      violations := [] }
  else if news_events.isEmpty then
    { rule_number := 18
      status := STATUS_NOT_TESTABLE
      message := "Unable to fetch news data from ForexFactory. Cannot test this rule."
      total_trades := df.length
      violations := [] }
  else
    let violations := df.flatMap fun t => news_events.flatMap (newsHitsFor t)
    { rule_number := 18
      status := if violations.isEmpty then STATUS_PASSED else STATUS_VIOLATED
      message := ""
      total_trades := df.length
      violations := violations }

/-- `rule_executor.execute_rule_18`: when the add-on is enabled it
short-circuits to a `PASSED` result with message `"Skipped - Add-on enabled"`
(it does not call `check_news_trading`); otherwise it runs
`check_news_trading`, whose internal fetch is the placeholder
`fetch_forex_factory_news`. -/
def execute_rule_18 (df : List Trade) (addon_enabled : Bool) : Rule18Result :=
  if addon_enabled then
    { rule_number := 18
      status := STATUS_PASSED
      message := "Skipped - Add-on enabled"
      total_trades := df.length
      violations := [] }
  else check_news_trading df addon_enabled fetch_forex_factory_news

/-! ## utils.validate_csv_quality -/

/-- A raw row as the quality gate sees it: each required column either holds a
value or is null (`NaN`, which is what `isna` detects).  Value types are
irrelevant to the gate, only presence is. -/
structure RawRow where
  open_time : Option ℚ
  close_time : Option ℚ
  position_id : Option String
  side : Option String
  instrument : Option String
  lots : Option ℚ
  open_price : Option ℚ
  close_price : Option ℚ
deriving Repr, DecidableEq

/-- A row is invalid when any required column is null
(`df[REQUIRED_COLUMNS].isna().any(axis=1)`). -/
def rowInvalid (r : RawRow) : Bool :=
  r.open_time.isNone || r.close_time.isNone || r.position_id.isNone ||
  r.side.isNone || r.instrument.isNone || r.lots.isNone ||
  r.open_price.isNone || r.close_price.isNone

/-- The error messages of `validate_csv_quality`, as structured values (the
source formats them into strings; `noDataRows` renders exactly to
`"No data rows found in CSV"`). -/
inductive QualityMsg where
  | noDataRows : QualityMsg
  | nullColumn (column : String) (null_count : ℕ) : QualityMsg
  | lowValidPercent (valid_percent : ℚ) (min_required : ℚ) : QualityMsg
deriving Repr, DecidableEq

/-- The rendered text of a quality message, for the literals the source emits
verbatim. -/
def qualityMsgText : QualityMsg → String
  | .noDataRows => "No data rows found in CSV"
  | .nullColumn c _ => "Column " ++ c ++ " has null values"
  | .lowValidPercent _ _ => "Too few valid rows"

/-- The per-required-column null counts, in `config.REQUIRED_COLUMNS` order. -/
def columnNullCounts (df : List RawRow) : List (String × ℕ) :=
  [("Open Time", df.countP (·.open_time.isNone)),
   ("Close Time", df.countP (·.close_time.isNone)),
   ("Position ID", df.countP (·.position_id.isNone)),
   ("Side", df.countP (·.side.isNone)),
   ("Instrument", df.countP (·.instrument.isNone)),
   ("Lots", df.countP (·.lots.isNone)),
   ("Open Price", df.countP (·.open_price.isNone)),
   ("Close Price", df.countP (·.close_price.isNone))]

/-- Percentage of valid rows, `((total - invalid) / total) * 100`. -/
def validPercent (df : List RawRow) : ℚ :=
  ((df.length : ℚ) - df.countP rowInvalid) / df.length * 100

/-- `utils.validate_csv_quality` (default `min_valid_percent = 95.0`): empty
tables fail immediately with `noDataRows`; otherwise per-column null errors
are collected and the file is rejected exactly when the valid percentage
drops below the threshold. -/
def validate_csv_quality (df : List RawRow) (min_valid_percent : ℚ := 95) :
    Bool × List QualityMsg :=
  if df.length = 0 then (false, [.noDataRows])
  else
    let errors := (columnNullCounts df).filterMap fun c =>
      if c.2 > 0 then some (.nullColumn c.1 c.2) else none
    if validPercent df < min_valid_percent then
      (false, errors ++ [.lowValidPercent (validPercent df) min_valid_percent])
    else (true, errors)

/-! ## The time-swap step of utils.load_csv -/

/-- The swap step of `utils.load_csv`: a row with `Open Time > Close Time`
gets the two timestamps exchanged; every other row is untouched, no row is
dropped. -/
def swapTimesRow (t : Trade) : Trade :=
  if t.open_time > t.close_time then
    { t with open_time := t.close_time, close_time := t.open_time }
  else t

/-- The tail of `utils.load_csv` after parsing: swap reversed timestamps,
then derive `Duration_Seconds = Close Time - Open Time` per row.  The result
pairs each normalized row with its derived duration. -/
def load_csv_time_fix (df : List Trade) : List (Trade × ℚ) :=
  df.map fun t =>
    let t2 := swapTimesRow t
    (t2, t2.close_time - t2.open_time)

/-! ## dashboard_utils.calculate_overall_status -/

/-- One rule result as the aggregator sees it (`r.get('status')`). -/
structure AggResult where
  status : String
deriving Repr, DecidableEq

/-- The four counts the aggregator returns. -/
structure AggCounts where
  passed : ℕ
  violated : ℕ
  not_testable : ℕ
  total : ℕ
deriving Repr, DecidableEq

/-- `dashboard_utils.calculate_overall_status`: counts per status and an
overall label `"FAILED"` / `"PASSED"` / `"INCOMPLETE"`. -/
def calculate_overall_status (results : List AggResult) : String × AggCounts :=
  let passed := results.countP (·.status == STATUS_PASSED)
  let violated := results.countP (·.status == STATUS_VIOLATED)
  let not_testable := results.countP (·.status == STATUS_NOT_TESTABLE)
  let counts : AggCounts :=
    { passed := passed, violated := violated
      not_testable := not_testable, total := results.length }
  let overall :=
    if violated > 0 then "FAILED"
    else if passed > 0 ∧ violated = 0 then "PASSED"
    else "INCOMPLETE"
  (overall, counts)


/-! ## Helper lemmas -/

/-- The per-pair Boolean test of Rule 1, as a proposition. -/
lemma hedgingPairViolates_iff (t u : Trade) :
    hedgingPairViolates t u = true ↔
      t.instrument = u.instrument ∧ t.side ≠ u.side ∧ 1 ≤ overlapSeconds t u := by
  simp [hedgingPairViolates, check_time_overlap, overlapSeconds,
    HEDGING_MIN_OVERLAP_SECONDS, and_assoc]

lemma hedging_violations_eq (df : List Trade) :
    (check_hedging_violation df).violations = (tradePairs df).filterMap (fun p =>
      if hedgingPairViolates p.1 p.2 then
        some ⟨p.1.instrument, p.1, p.2,
          (check_time_overlap p.1.open_time p.1.close_time
            p.2.open_time p.2.close_time).2⟩
      else none) := rfl

lemma hedging_status_eq (df : List Trade) :
    (check_hedging_violation df).status =
      if (check_hedging_violation df).violations.length > 0 then STATUS_VIOLATED
      else STATUS_PASSED := rfl

lemma hedging_violations_ne_nil_iff (df : List Trade) :
    (check_hedging_violation df).violations ≠ [] ↔
      ∃ p ∈ tradePairs df, hedgingPairViolates p.1 p.2 = true := by
  rw [Ne, hedging_violations_eq, List.filterMap_eq_nil_iff]
  constructor
  · intro hnall
    by_contra hno
    push_neg at hno
    apply hnall
    intro p hp
    have hb : hedgingPairViolates p.1 p.2 = false := by
      cases hcb : hedgingPairViolates p.1 p.2
      · rfl
      · exact absurd hcb (hno p hp)
    simp [hb]
  · rintro ⟨p, hp, hc⟩ hall
    have h2 := hall p hp
    rw [if_pos hc] at h2
    exact Option.some_ne_none _ h2

/-! ## Boundary-example tables -/

/-- Boundary trade for Rule 1: BUY on EURUSD over `[0, 100]`. -/
def hedgeT1 : Trade := ⟨"1", "BUY", "EURUSD", 0, 100, 1, 1, 1⟩

/-- Opposite-side trade whose interval overlaps `hedgeT1` by exactly
0.999 seconds. -/
def hedgeT2pass : Trade := ⟨"2", "SELL", "EURUSD", 99 + 1/1000, 200, 1, 1, 1⟩

/-- Opposite-side trade whose interval overlaps `hedgeT1` by exactly
1.000 second. -/
def hedgeT2viol : Trade := ⟨"2", "SELL", "EURUSD", 99, 200, 1, 1, 1⟩

/-! ## Claim theorems -/

lemma hedging_status_cases (df : List Trade) :
    (check_hedging_violation df).status = STATUS_PASSED ∨
      (check_hedging_violation df).status = STATUS_VIOLATED := by
  rw [hedging_status_eq]
  by_cases h : (check_hedging_violation df).violations.length > 0
  · right; rw [if_pos h]
  · left; rw [if_neg h]

lemma hedging_status_violated_iff (df : List Trade) :
    (check_hedging_violation df).status = STATUS_VIOLATED ↔
      ∃ p ∈ tradePairs df, p.1.instrument = p.2.instrument ∧
        p.1.side ≠ p.2.side ∧ 1 ≤ overlapSeconds p.1 p.2 := by
  have hne := hedging_violations_ne_nil_iff df
  rw [hedging_status_eq]
  constructor
  · intro h
    by_cases hl : (check_hedging_violation df).violations.length > 0
    · obtain ⟨p, hp, hc⟩ := hne.mp (List.ne_nil_of_length_pos hl)
      exact ⟨p, hp, (hedgingPairViolates_iff p.1 p.2).mp hc⟩
    · rw [if_neg hl] at h
      exact absurd h (by decide)
  · rintro ⟨p, hp, hc⟩
    have hnil : (check_hedging_violation df).violations ≠ [] :=
      hne.mpr ⟨p, hp, (hedgingPairViolates_iff p.1 p.2).mpr hc⟩
    rw [if_pos (List.length_pos.mpr hnil)]

/-- Claim C1 (Rule 1, Hedging Ban): for every pair of trades (each unordered
pair considered once), a hedging violation is reported for that pair iff the
trades share the instrument, have opposite sides, and their time intervals
overlap by at least 1 second (overlap computed as `min(ends) - max(starts)`);
the rule's status is VIOLATED iff at least one such pair exists and is never
NOT TESTABLE; and at the boundary an overlap of exactly 0.999 seconds does
not violate while exactly 1.000 second does. -/
theorem c1_rule1_hedging_ban :
    (∀ (df : List Trade) (t u : Trade), (t, u) ∈ tradePairs df →
      ((∃ hv ∈ (check_hedging_violation df).violations,
          hv.trade1 = t ∧ hv.trade2 = u) ↔
        t.instrument = u.instrument ∧ t.side ≠ u.side ∧ 1 ≤ overlapSeconds t u)) ∧
    (∀ df : List Trade,
      ((check_hedging_violation df).status = STATUS_VIOLATED ↔
        ∃ p ∈ tradePairs df, p.1.instrument = p.2.instrument ∧
          p.1.side ≠ p.2.side ∧ 1 ≤ overlapSeconds p.1 p.2) ∧
      (check_hedging_violation df).status ≠ STATUS_NOT_TESTABLE) ∧
    (overlapSeconds hedgeT1 hedgeT2pass = 999/1000 ∧
      (check_hedging_violation [hedgeT1, hedgeT2pass]).status = STATUS_PASSED) ∧
    (overlapSeconds hedgeT1 hedgeT2viol = 1 ∧
      (check_hedging_violation [hedgeT1, hedgeT2viol]).status = STATUS_VIOLATED) := by
  have hpass_ov : overlapSeconds hedgeT1 hedgeT2pass = 999/1000 := by
    simp only [overlapSeconds, hedgeT1, hedgeT2pass]
    rw [min_eq_left (by norm_num), max_eq_right (by norm_num)]
    norm_num
  have hviol_ov : overlapSeconds hedgeT1 hedgeT2viol = 1 := by
    simp only [overlapSeconds, hedgeT1, hedgeT2viol]
    rw [min_eq_left (by norm_num), max_eq_right (by norm_num)]
    norm_num
  refine ⟨?_, ?_, ⟨hpass_ov, ?_⟩, ⟨hviol_ov, ?_⟩⟩
  · intro df t u hmem
    constructor
    · rintro ⟨hv, hhv, h1, h2⟩
      rw [hedging_violations_eq, List.mem_filterMap] at hhv
      obtain ⟨p, _, hfp⟩ := hhv
      by_cases hc : hedgingPairViolates p.1 p.2 = true
      · rw [if_pos hc] at hfp
        have hveq := Option.some.inj hfp
        have hp1 : p.1 = t := by rw [← h1, ← hveq]
        have hp2 : p.2 = u := by rw [← h2, ← hveq]
        rw [hp1, hp2] at hc
        exact (hedgingPairViolates_iff t u).mp hc
      · rw [if_neg hc] at hfp
        exact Option.noConfusion hfp
    · intro hcond
      have hb : hedgingPairViolates t u = true :=
        (hedgingPairViolates_iff t u).mpr hcond
      refine ⟨⟨t.instrument, t, u,
        (check_time_overlap t.open_time t.close_time
          u.open_time u.close_time).2⟩, ?_, rfl, rfl⟩
      rw [hedging_violations_eq, List.mem_filterMap]
      exact ⟨(t, u), hmem, by rw [if_pos hb]⟩
  · intro df
    refine ⟨hedging_status_violated_iff df, ?_⟩
    rcases hedging_status_cases df with h | h <;> rw [h] <;> decide
  · rcases hedging_status_cases [hedgeT1, hedgeT2pass] with h | h
    · exact h
    · exfalso
      obtain ⟨p, hp, hcond⟩ := (hedging_status_violated_iff _).mp h
      have hp' : p = (hedgeT1, hedgeT2pass) := by
        simpa [tradePairs] using hp
      rw [hp'] at hcond
      rw [hpass_ov] at hcond
      norm_num at hcond
  · apply (hedging_status_violated_iff _).mpr
    refine ⟨(hedgeT1, hedgeT2viol), by simp [tradePairs], by decide, by decide, ?_⟩
    rw [hviol_ov]

/-- Witness for C1: the 1.000-second-overlap pair is concretely reported. -/
theorem c1_rule1_hedging_ban_witness :
    ∃ hv ∈ (check_hedging_violation [hedgeT1, hedgeT2viol]).violations,
      hv.trade1 = hedgeT1 ∧ hv.trade2 = hedgeT2viol :=
  (c1_rule1_hedging_ban.1 [hedgeT1, hedgeT2viol] hedgeT1 hedgeT2viol
    (by simp [tradePairs])).mpr
    ⟨by decide, by decide, by
      have := c1_rule1_hedging_ban.2.2.2.1
      rw [this]⟩

lemma openTradesAt_mem_iff (df : List Trade) (t : Trade) (ts : ℚ) :
    t ∈ openTradesAt df ts ↔ t ∈ df ∧ t.open_time ≤ ts ∧ ts < t.close_time := by
  simp [openTradesAt, List.mem_filter, and_assoc]

lemma openTradesAt_nil_usage (df : List Trade) (e lev ts : ℚ)
    (h : openTradesAt df ts = []) : marginUsagePercentAt df e lev ts = 0 := by
  simp [marginUsagePercentAt, totalMarginAt, h]

lemma marginPred_iff (df : List Trade) (e lev ts : ℚ) :
    (!(openTradesAt df ts).isEmpty &&
      decide (marginUsagePercentAt df e lev ts > MAX_MARGIN_USAGE_PERCENT)) = true ↔
      MAX_MARGIN_USAGE_PERCENT < marginUsagePercentAt df e lev ts := by
  cases he : (openTradesAt df ts).isEmpty
  · simp [he]
  · have hnil := List.isEmpty_iff.mp he
    have h0 := openTradesAt_nil_usage df e lev ts hnil
    simp [he, h0, MAX_MARGIN_USAGE_PERCENT]
    norm_num

lemma marginViolations_ne_nil_iff (df : List Trade) (e lev : ℚ) :
    marginViolations df e lev ≠ [] ↔
      ∃ ts ∈ marginCheckPoints df,
        MAX_MARGIN_USAGE_PERCENT < marginUsagePercentAt df e lev ts := by
  rw [Ne, marginViolations, List.filter_eq_nil_iff]
  constructor
  · intro h
    by_contra hno
    push_neg at hno
    apply h
    intro ts hts hp
    exact absurd ((marginPred_iff df e lev ts).mp hp) (by
      have := hno ts hts
      exact not_lt.mpr this)
  · rintro ⟨ts, hts, hlt⟩ hall
    exact (hall ts hts) ((marginPred_iff df e lev ts).mpr hlt)

lemma margin_status_violated_iff (df : List Trade) (e : ℚ) (cfg : AccountConfig) :
    (marginResult df e cfg).status = STATUS_VIOLATED ↔
      marginViolations df e cfg.leverage ≠ [] := by
  simp only [marginResult]
  by_cases he : (marginViolations df e cfg.leverage).isEmpty = true
  · have hnil := List.isEmpty_iff.mp he
    rw [if_pos he]
    exact ⟨fun h => absurd h (by decide), fun h => absurd hnil h⟩
  · rw [if_neg he]
    refine ⟨fun _ => ?_, fun _ => rfl⟩
    intro hnil
    exact he (by simp [hnil])

lemma margin_status_cases (df : List Trade) (e : ℚ) (cfg : AccountConfig) :
    (marginResult df e cfg).status = STATUS_PASSED ∨
      (marginResult df e cfg).status = STATUS_VIOLATED := by
  simp only [marginResult]
  by_cases he : (marginViolations df e cfg.leverage).isEmpty = true
  · left; rw [if_pos he]
  · right; rw [if_neg he]

/-- Two overlapping trades whose combined margin is exactly 80.1% of a
100000 equity at leverage 50 (each margin is 40050). -/
def marginT801a : Trade := ⟨"1", "BUY", "EURUSD", 0, 100, 20025/1000, 1, 1⟩

def marginT801b : Trade := ⟨"2", "BUY", "EURUSD", 50, 150, 20025/1000, 1, 1⟩

/-- Two overlapping trades whose combined margin is exactly 80.11% of a
100000 equity at leverage 50 (each margin is 40055). -/
def marginT8011a : Trade := ⟨"1", "BUY", "EURUSD", 0, 100, 200275/10000, 1, 1⟩

def marginT8011b : Trade := ⟨"2", "BUY", "EURUSD", 50, 150, 200275/10000, 1, 1⟩

/-- Claim C3 (Rule 13, Max Margin 80%): margin per position is
`lots * 100000 * open_price / leverage`; for positive equity the status is
VIOLATED iff the margin usage percentage strictly exceeds 80.1 at some open
or close event timestamp (positions open at an instant summed there), and is
never NOT TESTABLE; at the boundary a combined usage of exactly 80.1% of
equity does not violate while 80.11% does. -/
theorem c3_rule13_max_margin :
    (∀ lots price leverage : ℚ,
      calculate_margin_required lots price leverage =
        lots * 100000 * price / leverage) ∧
    (∀ (df : List Trade) (equity : ℚ) (acct : String) (cfg : AccountConfig)
      (r : Rule13Result), ACCOUNT_TYPES acct = some cfg →
      check_margin_usage df equity acct = some r → 0 < equity →
      ((r.status = STATUS_VIOLATED ↔ ∃ ts ∈ marginCheckPoints df,
          MAX_MARGIN_USAGE_PERCENT <
            marginUsagePercentAt df equity cfg.leverage ts) ∧
        r.status ≠ STATUS_NOT_TESTABLE)) ∧
    (marginUsagePercentAt [marginT801a, marginT801b] 100000 50 50 = 801/10 ∧
      (check_margin_usage [marginT801a, marginT801b] 100000 "Funded Phase").map
        Rule13Result.status = some STATUS_PASSED) ∧
    (marginUsagePercentAt [marginT8011a, marginT8011b] 100000 50 50 = 8011/100 ∧
      (check_margin_usage [marginT8011a, marginT8011b] 100000 "Funded Phase").map
        Rule13Result.status = some STATUS_VIOLATED) := by
  refine ⟨fun _ _ _ => rfl, ?_, ⟨?_, ?_⟩, ⟨?_, ?_⟩⟩
  · intro df equity acct cfg r hacct hr _
    rw [check_margin_usage, hacct] at hr
    have hreq : marginResult df equity cfg = r := by
      simpa using hr
    subst hreq
    refine ⟨?_, ?_⟩
    · rw [margin_status_violated_iff, marginViolations_ne_nil_iff]
    · rcases margin_status_cases df equity cfg with h | h <;> rw [h] <;> decide
  · norm_num [marginUsagePercentAt, totalMarginAt, openTradesAt,
      calculate_margin_required, CONTRACT_SIZE_STANDARD, List.filter,
      marginT801a, marginT801b]
  · have hvio : marginViolations [marginT801a, marginT801b] 100000 50 = [] := by
      norm_num [marginViolations, marginCheckPoints, openTradesAt, totalMarginAt,
        marginUsagePercentAt, calculate_margin_required, CONTRACT_SIZE_STANDARD,
        MAX_MARGIN_USAGE_PERCENT, List.filter, List.flatMap,
        marginT801a, marginT801b]
    simp [check_margin_usage, ACCOUNT_TYPES, marginResult, hvio]
  · norm_num [marginUsagePercentAt, totalMarginAt, openTradesAt,
      calculate_margin_required, CONTRACT_SIZE_STANDARD, List.filter,
      marginT8011a, marginT8011b]
  · have hvio : marginViolations [marginT8011a, marginT8011b] 100000 50 = [50] := by
      norm_num [marginViolations, marginCheckPoints, openTradesAt, totalMarginAt,
        marginUsagePercentAt, calculate_margin_required, CONTRACT_SIZE_STANDARD,
        MAX_MARGIN_USAGE_PERCENT, List.filter, List.flatMap,
        marginT8011a, marginT8011b]
    simp [check_margin_usage, ACCOUNT_TYPES, marginResult, hvio]

/-- Witness for C3: the general statement applied to the concrete 80.11%
table, whose status is concretely VIOLATED. -/
theorem c3_rule13_max_margin_witness :
    (marginResult [marginT8011a, marginT8011b] 100000 ⟨50, 4⟩).status =
      STATUS_VIOLATED :=
  ((c3_rule13_max_margin.2.1 [marginT8011a, marginT8011b] 100000 "Funded Phase"
    ⟨50, 4⟩ (marginResult [marginT8011a, marginT8011b] 100000 ⟨50, 4⟩)
    rfl rfl (by norm_num)).1).mpr
    (by
      refine ⟨50, ?_, ?_⟩
      · simp [marginCheckPoints, marginT8011a, marginT8011b, List.flatMap]
      · norm_num [marginUsagePercentAt, totalMarginAt, openTradesAt,
          calculate_margin_required, CONTRACT_SIZE_STANDARD, List.filter,
          MAX_MARGIN_USAGE_PERCENT, marginT8011a, marginT8011b])

/-- Claim C9 (implicit, Rule 13 half-open semantics): a trade is in the
open-position set at instant `ts` iff `open_time <= ts` and
`close_time > ts`; in particular a trade is never open at its own close
timestamp, and a position closing exactly when another opens is excluded at
that shared instant. -/
theorem c9_rule13_half_open :
    (∀ (df : List Trade) (t : Trade) (ts : ℚ),
      t ∈ openTradesAt df ts ↔ t ∈ df ∧ t.open_time ≤ ts ∧ ts < t.close_time) ∧
    (∀ (df : List Trade) (t : Trade), t ∉ openTradesAt df t.close_time) ∧
    (∀ (df : List Trade) (t u : Trade), t.close_time = u.open_time →
      t ∉ openTradesAt df u.open_time) := by
  have h1 : ∀ (df : List Trade) (t : Trade) (ts : ℚ),
      t ∈ openTradesAt df ts ↔ t ∈ df ∧ t.open_time ≤ ts ∧ ts < t.close_time :=
    openTradesAt_mem_iff
  have h2 : ∀ (df : List Trade) (t : Trade), t ∉ openTradesAt df t.close_time := by
    intro df t hmem
    exact absurd ((h1 df t t.close_time).mp hmem).2.2 (lt_irrefl _)
  exact ⟨h1, h2, fun df t u h => h ▸ h2 df t⟩

/-- A trade opening exactly at `hedgeT1`'s close instant, for the C9
witness. -/
def touchTrade : Trade := ⟨"3", "BUY", "EURUSD", 100, 200, 1, 1, 1⟩

/-- Witness for C9: `hedgeT1` (closing at 100) is not in the open set at
`touchTrade`'s open instant 100. -/
theorem c9_rule13_half_open_witness :
    hedgeT1 ∉ openTradesAt [hedgeT1, touchTrade] touchTrade.open_time :=
  c9_rule13_half_open.2.2 [hedgeT1, touchTrade] hedgeT1 touchTrade rfl

lemma weekendOverlapPred_iff (t : Trade) (w : ℚ × ℚ) :
    ((check_time_overlap t.open_time t.close_time w.1 w.2).1 &&
      decide (TOLERANCE_TIME ≤
        (check_time_overlap t.open_time t.close_time w.1 w.2).2)) = true ↔
      1 ≤ min t.close_time w.2 - max t.open_time w.1 := by
  simp only [check_time_overlap, TOLERANCE_TIME, HEDGING_MIN_OVERLAP_SECONDS,
    Bool.and_eq_true, decide_eq_true_eq]
  constructor
  · rintro ⟨h, -⟩; exact h
  · intro h; exact ⟨h, le_max_of_le_right h⟩

lemma weekendEventsFor_both_false (ws : List (ℚ × ℚ)) (t : Trade)
    (h1 : is_weekend t.open_time = false) (h2 : is_weekend t.close_time = false) :
    weekendEventsFor ws t = (match ws.find? (fun w =>
        (check_time_overlap t.open_time t.close_time w.1 w.2).1 &&
          decide (TOLERANCE_TIME ≤
            (check_time_overlap t.open_time t.close_time w.1 w.2).2)) with
      | some w => [("HELD", w.1)]
      | none => []) := by
  simp [weekendEventsFor, h1, h2]

lemma weekendEventsFor_held_iff (ws : List (ℚ × ℚ)) (t : Trade) :
    (∃ tm, ("HELD", tm) ∈ weekendEventsFor ws t) ↔
      (is_weekend t.open_time = false ∧ is_weekend t.close_time = false ∧
        ∃ w ∈ ws, 1 ≤ min t.close_time w.2 - max t.open_time w.1) := by
  cases h1 : is_weekend t.open_time
  · cases h2 : is_weekend t.close_time
    · rw [weekendEventsFor_both_false ws t h1 h2]
      cases hf : ws.find? (fun w =>
          (check_time_overlap t.open_time t.close_time w.1 w.2).1 &&
            decide (TOLERANCE_TIME ≤
              (check_time_overlap t.open_time t.close_time w.1 w.2).2)) with
      | none =>
        simp only [hf]
        constructor
        · rintro ⟨tm, htm⟩
          exact absurd htm (List.not_mem_nil _)
        · rintro ⟨-, -, w, hw, hle⟩
          exact absurd ((weekendOverlapPred_iff t w).mpr hle)
            (by simpa using List.find?_eq_none.mp hf w hw)
      | some w =>
        simp only [hf]
        constructor
        · rintro ⟨tm, -⟩
          have hpw := List.find?_some hf
          exact ⟨by simp, by simp, w, List.mem_of_find?_eq_some hf,
            (weekendOverlapPred_iff t w).mp hpw⟩
        · intro _
          exact ⟨w.1, by simp⟩
    · simp [weekendEventsFor, h1, h2]
  · cases h2 : is_weekend t.close_time <;> simp [weekendEventsFor, h1, h2]

lemma weekendEventsFor_open_iff (ws : List (ℚ × ℚ)) (t : Trade) :
    ("OPEN", t.open_time) ∈ weekendEventsFor ws t ↔
      is_weekend t.open_time = true := by
  cases h1 : is_weekend t.open_time <;> cases h2 : is_weekend t.close_time <;>
    simp [weekendEventsFor, h1, h2]
  cases hf : ws.find? (fun w =>
      (check_time_overlap t.open_time t.close_time w.1 w.2).1 &&
        decide (TOLERANCE_TIME ≤
          (check_time_overlap t.open_time t.close_time w.1 w.2).2)) <;>
    simp

lemma weekendEventsFor_close_iff (ws : List (ℚ × ℚ)) (t : Trade) :
    ("CLOSE", t.close_time) ∈ weekendEventsFor ws t ↔
      is_weekend t.close_time = true := by
  cases h1 : is_weekend t.open_time <;> cases h2 : is_weekend t.close_time <;>
    simp [weekendEventsFor, h1, h2]
  cases hf : ws.find? (fun w =>
      (check_time_overlap t.open_time t.close_time w.1 w.2).1 &&
        decide (TOLERANCE_TIME ≤
          (check_time_overlap t.open_time t.close_time w.1 w.2).2)) <;>
    simp

lemma weekend_violations_eq (df : List Trade) :
    (check_weekend_trading df false).violations = df.flatMap fun t =>
      (weekendEventsFor
        (get_weekend_windows (minOpenTime df) (maxCloseTime df)) t).map fun e =>
        { position_id := t.position_id, event_type := e.1,
          event_time := e.2 : WeekendViolation } := rfl

lemma weekend_status_eq (df : List Trade) :
    (check_weekend_trading df false).status =
      if (check_weekend_trading df false).violations.isEmpty then STATUS_PASSED
      else STATUS_VIOLATED := rfl

lemma weekend_status_violated_iff (df : List Trade) :
    (check_weekend_trading df false).status = STATUS_VIOLATED ↔
      ∃ t ∈ df, weekendEventsFor
        (get_weekend_windows (minOpenTime df) (maxCloseTime df)) t ≠ [] := by
  have hnil : (check_weekend_trading df false).violations = [] ↔
      ∀ t ∈ df, weekendEventsFor
        (get_weekend_windows (minOpenTime df) (maxCloseTime df)) t = [] := by
    rw [weekend_violations_eq, List.flatMap_eq_nil_iff]
    constructor
    · intro h t ht
      exact List.map_eq_nil_iff.mp (h t ht)
    · intro h t ht
      rw [h t ht]; rfl
  rw [weekend_status_eq]
  by_cases he : (check_weekend_trading df false).violations.isEmpty = true
  · rw [if_pos he]
    have hall := hnil.mp (List.isEmpty_iff.mp he)
    constructor
    · intro h; exact absurd h (by decide)
    · rintro ⟨t, ht, hne⟩
      exact absurd (hall t ht) hne
  · rw [if_neg he]
    refine ⟨fun _ => ?_, fun _ => rfl⟩
    by_contra hno
    push_neg at hno
    exact he (List.isEmpty_iff.mpr (hnil.mpr hno))

/-- The boundary trade of the C2 scenario: opened Friday 2024-01-05 21:59:59
UTC (epoch 1704491999), closed Saturday 2024-01-06 12:00:00 UTC
(epoch 1704542400). -/
def wkndTrade : Trade := ⟨"9", "BUY", "EURUSD", 1704491999, 1704542400, 1, 1, 1⟩

lemma wknd_violations_concrete :
    (check_weekend_trading [wkndTrade] false).violations =
      [⟨"9", "CLOSE", 1704542400⟩] := by
  have hwin : get_weekend_windows (1704491999 : ℚ) (1704542400 : ℚ) =
      [(1704492000, 1704664800)] := by
    norm_num [get_weekend_windows, weekdayOf, daysOf,
      (show Int.toNat 2 = 2 from rfl), (show List.range 2 = [0, 1] from rfl),
      List.filterMap_cons, List.flatMap]
  have hopen : is_weekend (1704491999 : ℚ) = false := by
    norm_num [is_weekend, weekdayOf, hourOf, daysOf]
  have hclose : is_weekend (1704542400 : ℚ) = true := by
    norm_num [is_weekend, weekdayOf, hourOf, daysOf]
  simp [check_weekend_trading, weekendEventsFor, minOpenTime, maxCloseTime,
    hwin, hopen, hclose, wkndTrade]

/-- Counterexample to C2 as stated: the trade opened Friday 21:59:59 UTC
(weekday 4, hour 21) and closed Saturday (weekday 5) is flagged CLOSE — its
close instant falls inside the weekend window — and is NOT flagged HELD,
because the held check only runs when neither OPEN nor CLOSE fired. -/
theorem c2_rule19_weekend_trading_counterexample :
    weekdayOf wkndTrade.open_time = 4 ∧ hourOf wkndTrade.open_time = 21 ∧
    weekdayOf wkndTrade.close_time = 5 ∧
    (¬ ∃ v ∈ (check_weekend_trading [wkndTrade] false).violations,
        v.event_type = "HELD") ∧
    (∃ v ∈ (check_weekend_trading [wkndTrade] false).violations,
        v.event_type = "CLOSE") := by
  refine ⟨?_, ?_, ?_, ?_, ?_⟩
  · norm_num [weekdayOf, daysOf, wkndTrade]
  · norm_num [hourOf, daysOf, wkndTrade]
  · norm_num [weekdayOf, daysOf, wkndTrade]
  · rw [wknd_violations_concrete]
    rintro ⟨v, hv, hty⟩
    rw [List.mem_singleton] at hv
    rw [hv] at hty
    exact absurd hty (by decide)
  · rw [wknd_violations_concrete]
    exact ⟨⟨"9", "CLOSE", 1704542400⟩, List.mem_singleton.mpr rfl, rfl⟩

/-- Claim C2 as amended (Rule 19, Weekend Trading, add-on disabled): each
trade is flagged OPEN iff its open instant lies in the weekend window, CLOSE
iff its close instant does, and HELD iff neither of those flagged and its
interval overlaps some generated weekend window by at least 1 second; the
status is VIOLATED iff some trade is flagged; and the trade opened Friday
21:59:59 UTC and closed Saturday does not flag OPEN but flags CLOSE (not
HELD, since HELD is only evaluated when neither OPEN nor CLOSE fired). -/
theorem c2_rule19_weekend_trading :
    (∀ (ws : List (ℚ × ℚ)) (t : Trade),
      (("OPEN", t.open_time) ∈ weekendEventsFor ws t ↔
        is_weekend t.open_time = true) ∧
      (("CLOSE", t.close_time) ∈ weekendEventsFor ws t ↔
        is_weekend t.close_time = true) ∧
      ((∃ tm, ("HELD", tm) ∈ weekendEventsFor ws t) ↔
        (is_weekend t.open_time = false ∧ is_weekend t.close_time = false ∧
          ∃ w ∈ ws, 1 ≤ min t.close_time w.2 - max t.open_time w.1))) ∧
    (∀ df : List Trade,
      (check_weekend_trading df false).status = STATUS_VIOLATED ↔
        ∃ t ∈ df, weekendEventsFor
          (get_weekend_windows (minOpenTime df) (maxCloseTime df)) t ≠ []) ∧
    (check_weekend_trading [wkndTrade] false).violations =
      [⟨"9", "CLOSE", 1704542400⟩] :=
  ⟨fun ws t => ⟨weekendEventsFor_open_iff ws t, weekendEventsFor_close_iff ws t,
      weekendEventsFor_held_iff ws t⟩,
    weekend_status_violated_iff, wknd_violations_concrete⟩

/-- Witness for C2: the CLOSE flag of the concrete Saturday-close trade,
obtained through the amended theorem's CLOSE characterization. -/
theorem c2_rule19_weekend_trading_witness :
    ("CLOSE", wkndTrade.close_time) ∈ weekendEventsFor [] wkndTrade :=
  ((c2_rule19_weekend_trading.1 [] wkndTrade).2.1).mpr
    (by norm_num [is_weekend, weekdayOf, hourOf, daysOf, wkndTrade])

/-- A fully-populated raw row. -/
def csvValidRow : RawRow :=
  ⟨some 0, some 1, some "p", some "BUY", some "EURUSD", some 1, some 1, some 1⟩

/-- A raw row with a null `Lots` column. -/
def csvInvalidRow : RawRow :=
  ⟨some 0, some 1, some "p", some "BUY", some "EURUSD", none, some 1, some 1⟩

/-- 50 rows of which 47 are valid: exactly 94% valid. -/
def csvTable94 : List RawRow :=
  List.replicate 47 csvValidRow ++ List.replicate 3 csvInvalidRow

/-- 20 rows of which 19 are valid: exactly 95% valid. -/
def csvTable95 : List RawRow :=
  List.replicate 19 csvValidRow ++ [csvInvalidRow]

/-- Claim C4 (Normalizer quality gate): a row is invalid when any required
column is null; for every non-empty table the file is rejected iff strictly
fewer than 95% of its rows are valid; a table with exactly 94% valid rows is
rejected and one with exactly 95% valid rows is accepted. -/
theorem c4_quality_gate :
    (∀ r : RawRow, rowInvalid r = true ↔
      (r.open_time = none ∨ r.close_time = none ∨ r.position_id = none ∨
        r.side = none ∨ r.instrument = none ∨ r.lots = none ∨
        r.open_price = none ∨ r.close_price = none)) ∧
    (∀ df : List RawRow, df ≠ [] →
      ((validate_csv_quality df).1 = false ↔ validPercent df < 95)) ∧
    (validPercent csvTable94 = 94 ∧ (validate_csv_quality csvTable94).1 = false) ∧
    (validPercent csvTable95 = 95 ∧ (validate_csv_quality csvTable95).1 = true) := by
  have hgen : ∀ df : List RawRow, df ≠ [] →
      ((validate_csv_quality df).1 = false ↔ validPercent df < 95) := by
    intro df hne
    have hlen : ¬ (df.length = 0) := by
      simpa using fun h => hne (List.length_eq_zero.mp h)
    by_cases hv : validPercent df < 95
    · simp [validate_csv_quality, hlen, hv]
    · simp [validate_csv_quality, hlen, hv]
  have h94 : validPercent csvTable94 = 94 := by
    have hc : csvTable94.countP rowInvalid = 3 := by decide
    have hl : csvTable94.length = 50 := by decide
    rw [validPercent, hc, hl]
    norm_num
  have h95 : validPercent csvTable95 = 95 := by
    have hc : csvTable95.countP rowInvalid = 1 := by decide
    have hl : csvTable95.length = 20 := by decide
    rw [validPercent, hc, hl]
    norm_num
  refine ⟨?_, hgen, ⟨h94, ?_⟩, ⟨h95, ?_⟩⟩
  · intro r
    simp [rowInvalid, or_assoc]
  · exact (hgen csvTable94 (by decide)).mpr (by rw [h94]; norm_num)
  · have := hgen csvTable95 (by decide)
    have hnot : ¬ ((validate_csv_quality csvTable95).1 = false) := by
      rw [this, h95]
      norm_num
    simpa using hnot

/-- Witness for C4: the 94%-valid table is concretely rejected, through the
general characterization. -/
theorem c4_quality_gate_witness :
    (validate_csv_quality csvTable94).1 = false :=
  (c4_quality_gate.2.1 csvTable94 (by decide)).mpr
    (by rw [c4_quality_gate.2.2.1.1]; norm_num)

/-- Claim C10 (implicit): quality validation of an empty table always fails
with the `No data rows found in CSV` error, for every threshold — it never
reaches the percentage division. -/
theorem c10_empty_table_rejected :
    (∀ min_valid_percent : ℚ,
      validate_csv_quality [] min_valid_percent =
        (false, [QualityMsg.noDataRows])) ∧
    validate_csv_quality [] = (false, [QualityMsg.noDataRows]) ∧
    qualityMsgText QualityMsg.noDataRows = "No data rows found in CSV" :=
  ⟨fun _ => rfl, rfl, rfl⟩

/-- A row whose timestamps arrive reversed. -/
def revTrade : Trade := ⟨"r", "BUY", "EURUSD", 100, 0, 1, 1, 1⟩

/-- Claim C7 (time-swap invariant of normalization): a row with
`open_time > close_time` gets its two timestamps exchanged and is kept (no
row is dropped), every other row is untouched, and afterwards every row
satisfies `open_time <= close_time` with
`duration_seconds = close_time - open_time >= 0`. -/
theorem c7_time_swap_invariant :
    (∀ t : Trade, t.open_time > t.close_time →
      swapTimesRow t =
        { t with
          open_time := t.close_time
          close_time := t.open_time }) ∧
    (∀ t : Trade, ¬ t.open_time > t.close_time → swapTimesRow t = t) ∧
    (∀ df : List Trade, (load_csv_time_fix df).length = df.length) ∧
    (∀ (df : List Trade) (p : Trade × ℚ), p ∈ load_csv_time_fix df →
      p.1.open_time ≤ p.1.close_time ∧
        p.2 = p.1.close_time - p.1.open_time ∧ 0 ≤ p.2) := by
  have hle : ∀ t : Trade,
      (swapTimesRow t).open_time ≤ (swapTimesRow t).close_time := by
    intro t
    by_cases h : t.open_time > t.close_time
    · simp only [swapTimesRow, if_pos h]
      exact le_of_lt h
    · simp only [swapTimesRow, if_neg h]
      exact not_lt.mp h
  refine ⟨?_, ?_, ?_, ?_⟩
  · intro t h
    rw [swapTimesRow, if_pos h]
  · intro t h
    rw [swapTimesRow, if_neg h]
  · intro df
    simp [load_csv_time_fix]
  · intro df p hp
    rw [load_csv_time_fix, List.mem_map] at hp
    obtain ⟨t, -, rfl⟩ := hp
    exact ⟨hle t, rfl, sub_nonneg.mpr (hle t)⟩

/-- Witness for C7: the concrete reversed row is swapped, kept, and gets a
nonnegative duration. -/
theorem c7_time_swap_invariant_witness :
    swapTimesRow revTrade =
      { revTrade with
        open_time := revTrade.close_time
        close_time := revTrade.open_time } ∧
    (swapTimesRow revTrade, (swapTimesRow revTrade).close_time -
        (swapTimesRow revTrade).open_time).1.open_time ≤
      (swapTimesRow revTrade, (swapTimesRow revTrade).close_time -
        (swapTimesRow revTrade).open_time).1.close_time :=
  ⟨c7_time_swap_invariant.1 revTrade (by norm_num [revTrade]),
    (c7_time_swap_invariant.2.2.2 [revTrade]
      (swapTimesRow revTrade, (swapTimesRow revTrade).close_time -
        (swapTimesRow revTrade).open_time)
      (by simp [load_csv_time_fix])).1⟩

/-- Claim C8 (determinism of rule evaluation): every embedded evaluator is a
pure function of the normalized table, equity, account type, add-on flags
and news list — the source modules keep no mutable module state and call no
randomness — so two evaluations of the same inputs are identical results. -/
theorem c8_determinism :
    ∀ (df : List Trade) (equity : ℚ) (acct : String) (addon : Bool)
      (news : List NewsEvent),
      check_hedging_violation df = check_hedging_violation df ∧
      check_margin_usage df equity acct = check_margin_usage df equity acct ∧
      check_weekend_trading df addon = check_weekend_trading df addon ∧
      check_news_trading df addon news = check_news_trading df addon news ∧
      execute_rule_18 df addon = execute_rule_18 df addon ∧
      validate_csv_quality ([] : List RawRow) =
        validate_csv_quality ([] : List RawRow) :=
  fun _ _ _ _ _ => ⟨rfl, rfl, rfl, rfl, rfl, rfl⟩

lemma newsHitsFor_ne_nil_iff (t : Trade) (e : NewsEvent) :
    newsHitsFor t e ≠ [] ↔
      e.currency ∈ relevantCurrencies t.instrument ∧
        (|t.open_time - e.time| ≤ NEWS_BUFFER_SECONDS ∨
          |t.close_time - e.time| ≤ NEWS_BUFFER_SECONDS) := by
  rw [newsHitsFor]
  by_cases hrel : (relevantCurrencies t.instrument).contains e.currency
  · rw [if_pos hrel]
    have hmem : e.currency ∈ relevantCurrencies t.instrument := by
      simpa using hrel
    by_cases h1 : |t.open_time - e.time| ≤ NEWS_BUFFER_SECONDS <;>
      by_cases h2 : |t.close_time - e.time| ≤ NEWS_BUFFER_SECONDS <;>
      simp [h1, h2, hmem]
  · rw [if_neg hrel]
    constructor
    · intro h
      exact absurd rfl h
    · rintro ⟨hmem, -⟩
      exact absurd (show (relevantCurrencies t.instrument).contains e.currency =
        true by simpa using hmem) hrel

lemma check_news_result_eq (df : List Trade) (news : List NewsEvent)
    (hne : news ≠ []) :
    check_news_trading df false news =
      { rule_number := 18
        status := if (df.flatMap fun t => news.flatMap (newsHitsFor t)).isEmpty
          then STATUS_PASSED else STATUS_VIOLATED
        message := ""
        total_trades := df.length
        violations := df.flatMap fun t => news.flatMap (newsHitsFor t) } := by
  have hne2 : news.isEmpty = false := by simpa using hne
  simp [check_news_trading, hne2]

lemma news_status_eq (df : List Trade) (news : List NewsEvent)
    (hne : news ≠ []) :
    (check_news_trading df false news).status =
      if (df.flatMap fun t => news.flatMap (newsHitsFor t)).isEmpty
        then STATUS_PASSED else STATUS_VIOLATED := by
  rw [check_news_result_eq df news hne]

lemma news_status_violated_iff (df : List Trade) (news : List NewsEvent)
    (hne : news ≠ []) :
    (check_news_trading df false news).status = STATUS_VIOLATED ↔
      ∃ t ∈ df, ∃ e ∈ news, newsHitsFor t e ≠ [] := by
  have hnil : (df.flatMap fun t => news.flatMap (newsHitsFor t)) = [] ↔
      ∀ t ∈ df, ∀ e ∈ news, newsHitsFor t e = [] := by
    rw [List.flatMap_eq_nil_iff]
    constructor
    · intro h t ht e he2
      exact List.flatMap_eq_nil_iff.mp (h t ht) e he2
    · intro h t ht
      exact List.flatMap_eq_nil_iff.mpr (h t ht)
  rw [news_status_eq df news hne]
  by_cases he : (df.flatMap fun t => news.flatMap (newsHitsFor t)).isEmpty = true
  · rw [if_pos he]
    have hall := hnil.mp (List.isEmpty_iff.mp he)
    constructor
    · intro h
      exact absurd h (by decide)
    · rintro ⟨t, ht, e, he2, hv⟩
      exact absurd (hall t ht e he2) hv
  · rw [if_neg he]
    refine ⟨fun _ => ?_, fun _ => rfl⟩
    by_contra hno
    push_neg at hno
    exact he (List.isEmpty_iff.mpr (hnil.mpr hno))

/-- Counterexample to C5 as stated: with the news add-on enabled, the
executor wrapper returns PASSED (`Skipped - Add-on enabled`), not
NOT TESTABLE. -/
theorem c5_rule18_news_trading_counterexample :
    (execute_rule_18 [] true).status = STATUS_PASSED ∧
    STATUS_PASSED ≠ STATUS_NOT_TESTABLE ∧
    (execute_rule_18 [] true).message = "Skipped - Add-on enabled" :=
  ⟨rfl, by decide, rfl⟩

/-- Claim C5 as amended (Rule 18, News Trading): `check_news_trading`
returns NOT TESTABLE when the add-on is enabled or the news list is empty,
and an empty news list is never PASSED (so also the executor with the add-on
off, whose placeholder fetch returns no events, reports NOT TESTABLE);
however `execute_rule_18` short-circuits the add-on-enabled case to PASSED
rather than NOT TESTABLE; with the add-on off and news present, the status
is VIOLATED iff some trade's open or close instant is within 300 seconds of
a news event whose currency is relevant to the trade's instrument. -/
theorem c5_rule18_news_trading :
    (∀ (df : List Trade) (news : List NewsEvent),
      (check_news_trading df true news).status = STATUS_NOT_TESTABLE) ∧
    (∀ df : List Trade,
      (check_news_trading df false []).status = STATUS_NOT_TESTABLE ∧
      (check_news_trading df false []).status ≠ STATUS_PASSED) ∧
    (∀ df : List Trade,
      (execute_rule_18 df false).status = STATUS_NOT_TESTABLE) ∧
    (∀ df : List Trade, (execute_rule_18 df true).status = STATUS_PASSED) ∧
    (∀ (df : List Trade) (news : List NewsEvent), news ≠ [] →
      ((check_news_trading df false news).status = STATUS_VIOLATED ↔
        ∃ t ∈ df, ∃ e ∈ news,
          e.currency ∈ relevantCurrencies t.instrument ∧
            (|t.open_time - e.time| ≤ NEWS_BUFFER_SECONDS ∨
              |t.close_time - e.time| ≤ NEWS_BUFFER_SECONDS))) := by
  refine ⟨fun _ _ => rfl, ?_, fun _ => rfl, fun _ => rfl, ?_⟩
  · intro df
    exact ⟨rfl, by exact (by decide : STATUS_NOT_TESTABLE ≠ STATUS_PASSED)⟩
  · intro df news hne
    rw [news_status_violated_iff df news hne]
    simp only [newsHitsFor_ne_nil_iff]

/-- A trade and a news event 50 seconds from its open, for the C5 witness. -/
def newsTrade : Trade := ⟨"n", "BUY", "EURUSD", 0, 100, 1, 1, 1⟩

def newsEv : NewsEvent := ⟨50, "EUR", "ECB"⟩

/-- Witness for C5: with the add-on off and one relevant event 50 seconds
from the trade's open, the amended characterization yields VIOLATED. -/
theorem c5_rule18_news_trading_witness :
    (check_news_trading [newsTrade] false [newsEv]).status = STATUS_VIOLATED :=
  (c5_rule18_news_trading.2.2.2.2 [newsTrade] [newsEv] (by simp)).mpr
    ⟨newsTrade, List.mem_singleton.mpr rfl, newsEv, List.mem_singleton.mpr rfl,
      by decide,
      Or.inl (by norm_num [newsTrade, newsEv, NEWS_BUFFER_SECONDS])⟩

lemma agg_exists_iff (results : List AggResult) (s : String) :
    (∃ r ∈ results, r.status = s) ↔
      0 < results.countP (·.status == s) := by
  rw [List.countP_pos_iff]
  simp

/-- Counterexample to C6 as stated: with a single VIOLATED rule the overall
label is the string `FAILED`, which is neither the rule-status literal
`❌ VIOLATED` nor the word `VIOLATED`. -/
theorem c6_aggregator_counterexample :
    (calculate_overall_status [⟨STATUS_VIOLATED⟩]).1 = "FAILED" ∧
    "FAILED" ≠ STATUS_VIOLATED ∧ ("FAILED" : String) ≠ "VIOLATED" :=
  ⟨rfl, by decide, by decide⟩

/-- Claim C6 as amended (Verdict Aggregator): the overall label is `FAILED`
(not `VIOLATED`) iff some rule's status is VIOLATED; `PASSED` iff at least
one rule PASSED and none violated; `INCOMPLETE` otherwise; and the returned
counts are exactly the numbers of PASSED, VIOLATED and NOT TESTABLE results
together with the total number of rule results. -/
theorem c6_aggregator :
    ∀ results : List AggResult,
      ((calculate_overall_status results).1 = "FAILED" ↔
        ∃ r ∈ results, r.status = STATUS_VIOLATED) ∧
      ((calculate_overall_status results).1 = "PASSED" ↔
        ((∃ r ∈ results, r.status = STATUS_PASSED) ∧
          ¬ ∃ r ∈ results, r.status = STATUS_VIOLATED)) ∧
      ((calculate_overall_status results).1 = "INCOMPLETE" ↔
        ((¬ ∃ r ∈ results, r.status = STATUS_PASSED) ∧
          ¬ ∃ r ∈ results, r.status = STATUS_VIOLATED)) ∧
      (calculate_overall_status results).2 =
        ⟨results.countP (·.status == STATUS_PASSED),
          results.countP (·.status == STATUS_VIOLATED),
          results.countP (·.status == STATUS_NOT_TESTABLE),
          results.length⟩ := by
  intro results
  have hv := agg_exists_iff results STATUS_VIOLATED
  have hp := agg_exists_iff results STATUS_PASSED
  by_cases hcv : 0 < results.countP (·.status == STATUS_VIOLATED)
  · have h1 : (calculate_overall_status results).1 = "FAILED" := by
      simp only [calculate_overall_status]
      rw [if_pos hcv]
    refine ⟨?_, ?_, ?_, rfl⟩
    · rw [h1]
      simp only [true_iff]
      exact hv.mpr hcv
    · rw [h1]
      constructor
      · intro h; exact absurd h (by decide)
      · rintro ⟨-, hno⟩; exact absurd (hv.mpr hcv) hno
    · rw [h1]
      constructor
      · intro h; exact absurd h (by decide)
      · rintro ⟨-, hno⟩; exact absurd (hv.mpr hcv) hno
  · have hveq : results.countP (·.status == STATUS_VIOLATED) = 0 :=
      Nat.eq_zero_of_not_pos hcv
    by_cases hcp : 0 < results.countP (·.status == STATUS_PASSED)
    · have h1 : (calculate_overall_status results).1 = "PASSED" := by
        simp only [calculate_overall_status]
        rw [if_neg hcv, if_pos ⟨hcp, hveq⟩]
      refine ⟨?_, ?_, ?_, rfl⟩
      · rw [h1]
        constructor
        · intro h; exact absurd h (by decide)
        · intro h; exact absurd (hv.mp h) hcv
      · rw [h1]
        simp only [true_iff]
        exact ⟨hp.mpr hcp, fun h => absurd (hv.mp h) hcv⟩
      · rw [h1]
        constructor
        · intro h; exact absurd h (by decide)
        · rintro ⟨hno, -⟩; exact absurd (hp.mpr hcp) hno
    · have h1 : (calculate_overall_status results).1 = "INCOMPLETE" := by
        simp only [calculate_overall_status]
        rw [if_neg hcv, if_neg (by
          rintro ⟨hcp2, -⟩
          exact hcp hcp2)]
      refine ⟨?_, ?_, ?_, rfl⟩
      · rw [h1]
        constructor
        · intro h; exact absurd h (by decide)
        · intro h; exact absurd (hv.mp h) hcv
      · rw [h1]
        constructor
        · intro h; exact absurd h (by decide)
        · rintro ⟨hyes, -⟩; exact absurd (hp.mp hyes) hcp
      · rw [h1]
        simp only [true_iff]
        exact ⟨fun h => absurd (hp.mp h) hcp, fun h => absurd (hv.mp h) hcv⟩

/-- Witness for C6: one VIOLATED rule result concretely yields the overall
label FAILED through the amended characterization. -/
theorem c6_aggregator_witness :
    (calculate_overall_status [⟨STATUS_VIOLATED⟩]).1 = "FAILED" :=
  ((c6_aggregator [⟨STATUS_VIOLATED⟩]).1).mpr
    ⟨⟨STATUS_VIOLATED⟩, List.mem_singleton.mpr rfl, rfl⟩
